import Mathlib

/-!
Verification of the Reddit Stats API backend (`src/main.py`).

The endpoints are FastAPI handlers built on PRAW.  We shallowly embed the
handler bodies as pure Lean functions: the provider (Reddit, reached through
PRAW) is modelled by explicit inputs — a full newest-first listing (or an
error string standing for the exception raised during the network call), and
an optional-field user record.  Machine floats (`created_utc` is a Python
float of epoch seconds) are modelled as integer seconds: every property
verified here depends only on the linear order of timestamps.  Python string
length and slicing act on characters, as do Lean's `String.length` and
`String.take`.
-/

deriving instance DecidableEq for Except

/-- HTTP error result, modelling FastAPI's `HTTPException(status_code, detail)`. -/
structure HTTPError where
  status_code : Int
  detail : String
deriving DecidableEq

/-- Raw provider record for a submission, as the fields of a PRAW
`Submission` that `main.py` reads (`subreddit` holds
`post.subreddit.display_name`; `selftext` is `""` for link posts, which is
falsy in Python). -/
structure RawPost where
  title : String
  subreddit : String
  score : Int
  ups : Int
  downs : Int
  num_comments : Int
  created_utc : Int
  permalink : String
  selftext : String
deriving DecidableEq

/-- Raw provider record for a comment, as the fields of a PRAW `Comment`
that `main.py` reads (`post_title` holds `comment.submission.title`). -/
structure RawComment where
  subreddit : String
  post_title : String
  score : Int
  created_utc : Int
  body : String
  permalink : String
deriving DecidableEq

/-- Raw provider record for the authenticated user (`reddit.user.me()`).
Each field the handlers access is `Option`al: `none` models a provider
record lacking that attribute, on which Python attribute access raises
`AttributeError`. -/
structure RawUser where
  name : Option String
  created_utc : Option Int
  link_karma : Option Int
  comment_karma : Option Int
deriving DecidableEq

/-- Python attribute access: yields the value, or raises (`Except.error`)
when the attribute is missing. -/
def getAttr {α : Type} (v : Option α) (attrName : String) : Except String α :=
  match v with
  | some x => Except.ok x
  | none => Except.error ("AttributeError: " ++ attrName)

/-- `pydantic` response model `PostResponse` of `main.py`. -/
structure PostResponse where
  title : String
  subreddit : String
  score : Int
  ups : Int
  downs : Int
  num_comments : Int
  created_utc : Int
  created_time : String
  permalink : String
  url : String
  selftext : Option String
  content_preview : Option String
deriving DecidableEq

/-- `pydantic` response model `CommentResponse` of `main.py`. -/
structure CommentResponse where
  subreddit : String
  post_title : String
  score : Int
  created_utc : Int
  created_time : String
  body : String
  comment_preview : String
  permalink : String
  url : String
deriving DecidableEq

/-- `pydantic` response model `UserStats` of `main.py`. -/
structure UserStats where
  username : String
  account_created : String
  link_karma : Int
  comment_karma : Int
  total_karma : Int
  total_posts : Int
  total_comments : Int
deriving DecidableEq

/-- Left-pad the decimal rendering of a non-negative integer with zeros to
width 2, as `strftime` does for `%m %d %H %M %S`. -/
def pad2 (n : Int) : String :=
  if n < 10 then "0" ++ toString n else toString n

/-- Civil date from a day count relative to 1970-01-01 (proleptic Gregorian,
Howard Hinnant's `civil_from_days`), used to model
`datetime.fromtimestamp`. Returns `(year, month, day)`. -/
def civilFromDays (z0 : Int) : Int × Int × Int :=
  let z := z0 + 719468
  let era := Int.fdiv z 146097
  let doe := z - era * 146097
  let yoe := Int.fdiv (doe - Int.fdiv doe 1460 + Int.fdiv doe 36524 - Int.fdiv doe 146096) 365
  let y := yoe + era * 400
  let doy := doe - (365 * yoe + Int.fdiv yoe 4 - Int.fdiv yoe 100)
  let mp := Int.fdiv (5 * doy + 2) 153
  let d := doy - Int.fdiv (153 * mp + 2) 5 + 1
  let m := mp + (if mp < 10 then 3 else -9)
  (y + (if m ≤ 2 then 1 else 0), m, d)

/-- `datetime.fromtimestamp(ts).strftime(\x27%Y-%m-%d\x27)` (UTC model of the
local-time call; the choice of zone affects no verified property). -/
def formatDate (ts : Int) : String :=
  let days := Int.fdiv ts 86400
  let ymd := civilFromDays days
  toString ymd.1 ++ "-" ++ pad2 ymd.2.1 ++ "-" ++ pad2 ymd.2.2

/-- `datetime.fromtimestamp(ts).strftime(\x27%Y-%m-%d %H:%M:%S\x27)` (UTC model). -/
def formatDateTime (ts : Int) : String :=
  let secs := Int.fmod ts 86400
  let hh := Int.fdiv secs 3600
  let mm := Int.fdiv (Int.fmod secs 3600) 60
  let ss := Int.fmod secs 60
  formatDate ts ++ " " ++ pad2 hh ++ ":" ++ pad2 mm ++ ":" ++ pad2 ss

/-- The inline preview expression of `main.py`
(`s[:200] + "..." if len(s) > 200 else s`). -/
def preview200 (s : String) : String :=
  if s.length > 200 then s.take 200 ++ "..." else s

/-- Python slice `l[:n]` on an `int` bound: a non-negative `n` keeps the
first `n` elements, a negative `n` drops the last `-n`. -/
def pySliceTo {α : Type} (l : List α) (n : Int) : List α :=
  if 0 ≤ n then l.take n.toNat else l.take (l.length - (-n).toNat)

/-- The comparison key of `all_posts.sort(key=lambda x: x.created_utc)`. -/
def postLE (a b : RawPost) : Prop := a.created_utc ≤ b.created_utc

/-- The comparison key of `all_comments.sort(key=lambda x: x.created_utc)`. -/
def commentLE (a b : RawComment) : Prop := a.created_utc ≤ b.created_utc

instance : DecidableRel postLE := fun a b =>
  inferInstanceAs (Decidable (a.created_utc ≤ b.created_utc))

instance : DecidableRel commentLE := fun a b =>
  inferInstanceAs (Decidable (a.created_utc ≤ b.created_utc))

instance : IsTotal RawPost postLE :=
  ⟨fun a b => Int.le_total a.created_utc b.created_utc⟩

instance : IsTrans RawPost postLE :=
  ⟨fun _ _ _ hab hbc => le_trans hab hbc⟩

instance : IsTotal RawComment commentLE :=
  ⟨fun a b => Int.le_total a.created_utc b.created_utc⟩

instance : IsTrans RawComment commentLE :=
  ⟨fun _ _ _ hab hbc => le_trans hab hbc⟩

/-- The body of the `for post in selected_posts` loop of `get_user_posts`:
one `PostResponse` built from one raw post. -/
def buildPostResponse (p : RawPost) : PostResponse :=
  { title := p.title
    subreddit := p.subreddit
    score := p.score
    ups := p.ups
    downs := p.downs
    num_comments := p.num_comments
    created_utc := p.created_utc
    created_time := formatDateTime p.created_utc
    permalink := p.permalink
    url := "https://reddit.com" ++ p.permalink
    selftext := some p.selftext
    content_preview := if p.selftext = "" then none else some (preview200 p.selftext) }

/-- The body of the `for comment in selected_comments` loop of
`get_user_comments`: one `CommentResponse` built from one raw comment. -/
def buildCommentResponse (c : RawComment) : CommentResponse :=
  { subreddit := c.subreddit
    post_title := c.post_title
    score := c.score
    created_utc := c.created_utc
    created_time := formatDateTime c.created_utc
    body := c.body
    comment_preview := preview200 c.body
    permalink := c.permalink
    url := "https://reddit.com" ++ c.permalink }

/-- The `try` block of `get_user_posts` (`main.py` lines 210-249).  `listing`
is the provider's full newest-first submission listing, or the error string
of the exception raised by the provider call.  `sort_order = "oldest"`
materialises the whole listing, sorts it ascending by `created_utc` (Python's
stable `list.sort`, modelled by the stable `List.insertionSort`) and slices
it; otherwise PRAW's `limit=limit` yields the first `limit` items (none when
`limit <= 0`, which is `Int.toNat` of the bound).  Any exception becomes
`HTTPException(500, "Error retrieving posts: " + str(e))`. -/
def postsTryBlock (limit : Int) (sort_order : String)
    (listing : Except String (List RawPost)) : Except HTTPError (List PostResponse) :=
  match listing with
  | Except.error e => Except.error ⟨500, "Error retrieving posts: " ++ e⟩
  | Except.ok allPosts =>
    let selected :=
      if sort_order = "oldest" then
        pySliceTo (List.insertionSort postLE allPosts) limit
      else
        allPosts.take limit.toNat
    Except.ok (selected.map buildPostResponse)

/-- The `try` block of `get_user_comments` (`main.py` lines 267-301). -/
def commentsTryBlock (limit : Int) (sort_order : String)
    (listing : Except String (List RawComment)) : Except HTTPError (List CommentResponse) :=
  match listing with
  | Except.error e => Except.error ⟨500, "Error retrieving comments: " ++ e⟩
  | Except.ok allComments =>
    let selected :=
      if sort_order = "oldest" then
        pySliceTo (List.insertionSort commentLE allComments) limit
      else
        allComments.take limit.toNat
    Except.ok (selected.map buildCommentResponse)

/-- `GET /api/user/posts` handler `get_user_posts` (`main.py` lines 194-249):
validates `sort_order`, then runs the `try` block. -/
def get_user_posts (limit : Int) (sort_order : String)
    (listing : Except String (List RawPost)) : Except HTTPError (List PostResponse) :=
  if ¬(sort_order = "oldest" ∨ sort_order = "newest") then
    Except.error ⟨400, "sort_order must be \x27oldest\x27 or \x27newest\x27"⟩
  else
    postsTryBlock limit sort_order listing

/-- `GET /api/user/comments` handler `get_user_comments`
(`main.py` lines 251-301). -/
def get_user_comments (limit : Int) (sort_order : String)
    (listing : Except String (List RawComment)) : Except HTTPError (List CommentResponse) :=
  if ¬(sort_order = "oldest" ∨ sort_order = "newest") then
    Except.error ⟨400, "sort_order must be \x27oldest\x27 or \x27newest\x27"⟩
  else
    commentsTryBlock limit sort_order listing

/-- Modelled from the spec: the Paginated Aggregator that underlies
`sum(1 for _ in user.submissions.new(limit=None))` — the cursor-walking loop
lives in PRAW's `ListingGenerator`, not under `src/`.  Per the spec it
requests pages with an `after` cursor, accumulates `count += len(page)`, and
terminates when a page is empty or the next cursor is absent.  `pages` is the
provider's page sequence (the cursor chain made explicit); an empty page
stops the walk, the end of the sequence models the absent cursor. -/
def aggregateCount {α : Type} : List (List α) → Nat
  | [] => 0
  | page :: rest => if page.isEmpty then 0 else page.length + aggregateCount rest

/-- `GET /api/user/stats` handler `get_user_stats` (`main.py` lines 169-192).
`fetchUser` models `reddit.user.me()` (or the exception its network call
raises); `postPages`/`commentPages` are the provider page sequences walked by
the two counting generators.  Field accesses happen in source order: the
counts are computed first, then the `UserStats` constructor reads `name`,
`created_utc`, `link_karma`, `comment_karma`.  Any exception becomes
`HTTPException(500, "Error retrieving user stats: " + str(e))`. -/
def get_user_stats (fetchUser : Except String RawUser)
    (postPages : List (List RawPost)) (commentPages : List (List RawComment)) :
    Except HTTPError UserStats :=
  let body : Except String UserStats := do
    let user ← fetchUser
    let post_count := aggregateCount postPages
    let comment_count := aggregateCount commentPages
    let nm ← getAttr user.name "name"
    let created ← getAttr user.created_utc "created_utc"
    let lk ← getAttr user.link_karma "link_karma"
    let ck ← getAttr user.comment_karma "comment_karma"
    pure { username := nm
           account_created := formatDate created
           link_karma := lk
           comment_karma := ck
           total_karma := lk + ck
           total_posts := post_count
           total_comments := comment_count }
  match body with
  | Except.ok s => Except.ok s
  | Except.error e => Except.error ⟨500, "Error retrieving user stats: " ++ e⟩

/-- `POST /api/user/posts/with-credentials` handler
`get_user_posts_with_credentials` (`main.py` lines 330-380).  `conn` models
`create_reddit_instance_with_credentials` (its failure raises
`HTTPException(401, "Error connecting to Reddit: " + str(e))`).  The second
component of the result records whether a Reddit connection was attempted:
the `sort_order` check runs first, before any connection. -/
def get_user_posts_with_credentials (conn : Except String Unit) (limit : Int)
    (sort_order : String) (listing : Except String (List RawPost)) :
    Except HTTPError (List PostResponse) × Bool :=
  if ¬(sort_order = "oldest" ∨ sort_order = "newest") then
    (Except.error ⟨400, "sort_order must be \x27oldest\x27 or \x27newest\x27"⟩, false)
  else
    match conn with
    | Except.error e => (Except.error ⟨401, "Error connecting to Reddit: " ++ e⟩, true)
    | Except.ok _ => (postsTryBlock limit sort_order listing, true)

/-- `POST /api/user/comments/with-credentials` handler
`get_user_comments_with_credentials` (`main.py` lines 382-426). -/
def get_user_comments_with_credentials (conn : Except String Unit) (limit : Int)
    (sort_order : String) (listing : Except String (List RawComment)) :
    Except HTTPError (List CommentResponse) × Bool :=
  if ¬(sort_order = "oldest" ∨ sort_order = "newest") then
    (Except.error ⟨400, "sort_order must be \x27oldest\x27 or \x27newest\x27"⟩, false)
  else
    match conn with
    | Except.error e => (Except.error ⟨401, "Error connecting to Reddit: " ++ e⟩, true)
    | Except.ok _ => (commentsTryBlock limit sort_order listing, true)

/-- Modelled from the spec: one pending OAuth `AuthState` record of the
Session Store (§3, §4.1) — no OAuth variant is under `src/`.  Created at
login-url issuance with a consumed flag, mutated once at callback. -/
structure AuthStateRec where
  consumed : Bool
deriving DecidableEq

/-- Modelled from the spec: the Session Store mapping from opaque state
identifiers to records, as an association list. -/
abbrev AuthStore : Type := List (String × AuthStateRec)

/-- Mark the entry for `st` consumed. -/
def markConsumed (store : AuthStore) (st : String) : AuthStore :=
  store.map (fun p => if p.1 = st then (p.1, ⟨true⟩) else p)

/-- Modelled from the spec: `validate_and_mark_auth_state(id)` of the
Session Store (§4.1) — fails (`false`) if the state is absent or already
marked consumed; otherwise marks it consumed and succeeds, atomically with
the lookup. -/
def validate_and_mark_auth_state (store : AuthStore) (st : String) :
    Bool × AuthStore :=
  match store.lookup st with
  | none => (false, store)
  | some r => if r.consumed then (false, store) else (true, markConsumed store st)

/-- Outcome of one OAuth callback, per spec §6: a session id on success,
`invalid_state` on a missing or reused state, `callback_failed` when the
token exchange fails. -/
inductive CallbackOutcome where
  | session (sid : String)
  | invalidState
  | callbackFailed
deriving DecidableEq

/-- Modelled from the spec: `GET /auth/callback` (§6) — consume the state
(at most once), then exchange the code for a token and create a session.
`exchange` models the Token Exchange result for the presented code;
`newSid` the freshly generated session identifier. -/
def auth_callback (store : AuthStore) (st : String)
    (exchange : Except String String) (newSid : String) :
    CallbackOutcome × AuthStore :=
  match validate_and_mark_auth_state store st with
  | (false, _) => (CallbackOutcome.invalidState, store)
  | (true, store') =>
    match exchange with
    | Except.ok _tok => (CallbackOutcome.session newSid, store')
    | Except.error _ => (CallbackOutcome.callbackFailed, store')

/-! ## Helper lemmas -/

theorem pySliceTo_nonneg {α : Type} (l : List α) (n : Int) (h : 0 ≤ n) :
    pySliceTo l n = l.take n.toNat := by
  simp [pySliceTo, h]

/-- Taking a prefix of a stably sorted copy of `l` yields a sorted list that,
together with the dropped suffix, permutes `l`, with every kept element
related to every dropped one. -/
theorem sorted_take_earliest {α : Type} (r : α → α → Prop) [DecidableRel r]
    [IsTotal α r] [IsTrans α r] (l : List α) (n : Nat) :
    List.Sorted r ((List.insertionSort r l).take n) ∧
    ((List.insertionSort r l).take n ++ (List.insertionSort r l).drop n).Perm l ∧
    (∀ a ∈ (List.insertionSort r l).take n,
      ∀ b ∈ (List.insertionSort r l).drop n, r a b) ∧
    ((List.insertionSort r l).take n).length = min n l.length := by
  have hs : List.Sorted r (List.insertionSort r l) := List.sorted_insertionSort r l
  have hperm : (List.insertionSort r l).Perm l := List.perm_insertionSort r l
  refine ⟨?_, ?_, ?_, ?_⟩
  · exact List.Pairwise.sublist (List.take_sublist n _) hs
  · rw [List.take_append_drop]
    exact hperm
  · have hp : List.Pairwise r
        ((List.insertionSort r l).take n ++ (List.insertionSort r l).drop n) := by
      rw [List.take_append_drop]
      exact hs
    exact (List.pairwise_append.mp hp).2.2
  · rw [List.length_take, hperm.length_eq]

/-! ## C1: "oldest" retrieval -/

/-- C1: for every request to the posts or comments endpoint with
`sort_order = "oldest"` and non-negative limit `N`, the returned list is the
`N` chronologically earliest items of the full history, sorted in
non-decreasing `created_utc` order: the full listing is fetched, sorted by
`created_utc`, and the first `N` taken — never a slice of a single unsorted
page. -/
theorem oldest_returns_earliest_sorted (limit : Int) (h : 0 ≤ limit)
    (allPosts : List RawPost) (allComments : List RawComment) :
    ∃ (selP restP : List RawPost) (selC restC : List RawComment),
      get_user_posts limit "oldest" (Except.ok allPosts) =
          Except.ok (selP.map buildPostResponse) ∧
      List.Sorted (fun x y : PostResponse => x.created_utc ≤ y.created_utc)
          (selP.map buildPostResponse) ∧
      (selP ++ restP).Perm allPosts ∧
      (∀ a ∈ selP, ∀ b ∈ restP, a.created_utc ≤ b.created_utc) ∧
      selP.length = min limit.toNat allPosts.length ∧
      get_user_comments limit "oldest" (Except.ok allComments) =
          Except.ok (selC.map buildCommentResponse) ∧
      List.Sorted (fun x y : CommentResponse => x.created_utc ≤ y.created_utc)
          (selC.map buildCommentResponse) ∧
      (selC ++ restC).Perm allComments ∧
      (∀ a ∈ selC, ∀ b ∈ restC, a.created_utc ≤ b.created_utc) ∧
      selC.length = min limit.toNat allComments.length := by
  obtain ⟨hps, hpp, hpr, hpl⟩ := sorted_take_earliest postLE allPosts limit.toNat
  obtain ⟨hcs, hcp, hcr, hcl⟩ := sorted_take_earliest commentLE allComments limit.toNat
  refine ⟨(List.insertionSort postLE allPosts).take limit.toNat,
      (List.insertionSort postLE allPosts).drop limit.toNat,
      (List.insertionSort commentLE allComments).take limit.toNat,
      (List.insertionSort commentLE allComments).drop limit.toNat,
      ?_, ?_, hpp, hpr, hpl, ?_, ?_, hcp, hcr, hcl⟩
  · simp [get_user_posts, postsTryBlock, pySliceTo_nonneg _ _ h]
  · exact List.Pairwise.map buildPostResponse (fun a b hab => hab) hps
  · simp [get_user_comments, commentsTryBlock, pySliceTo_nonneg _ _ h]
  · exact List.Pairwise.map buildCommentResponse (fun a b hab => hab) hcs

/-- A concrete raw post with the given timestamp, for witnesses. -/
def samplePost (t : Int) : RawPost :=
  ⟨"a title", "pics", 5, 6, 1, 2, t, "/r/pics/comments/1/a/", "text"⟩

/-- A concrete raw comment with the given timestamp, for witnesses. -/
def sampleComment (t : Int) : RawComment :=
  ⟨"pics", "a title", 3, t, "a body", "/r/pics/comments/1/a/c1/"⟩

/-- Witness for C1: the theorem applied at limit 2 on concrete
three-element histories. -/
theorem oldest_returns_earliest_sorted_witness :
    (0 : Int) ≤ 2 ∧
    (∃ (selP restP : List RawPost) (selC restC : List RawComment),
      get_user_posts 2 "oldest"
          (Except.ok [samplePost 30, samplePost 10, samplePost 20]) =
          Except.ok (selP.map buildPostResponse) ∧
      List.Sorted (fun x y : PostResponse => x.created_utc ≤ y.created_utc)
          (selP.map buildPostResponse) ∧
      (selP ++ restP).Perm [samplePost 30, samplePost 10, samplePost 20] ∧
      (∀ a ∈ selP, ∀ b ∈ restP, a.created_utc ≤ b.created_utc) ∧
      selP.length = min (2 : Int).toNat [samplePost 30, samplePost 10, samplePost 20].length ∧
      get_user_comments 2 "oldest"
          (Except.ok [sampleComment 7, sampleComment 5, sampleComment 6]) =
          Except.ok (selC.map buildCommentResponse) ∧
      List.Sorted (fun x y : CommentResponse => x.created_utc ≤ y.created_utc)
          (selC.map buildCommentResponse) ∧
      (selC ++ restC).Perm [sampleComment 7, sampleComment 5, sampleComment 6] ∧
      (∀ a ∈ selC, ∀ b ∈ restC, a.created_utc ≤ b.created_utc) ∧
      selC.length = min (2 : Int).toNat [sampleComment 7, sampleComment 5, sampleComment 6].length) :=
  ⟨by decide, oldest_returns_earliest_sorted 2 (by decide)
      [samplePost 30, samplePost 10, samplePost 20]
      [sampleComment 7, sampleComment 5, sampleComment 6]⟩

/-! ## C2: exact pagination count -/

/-- When no page before the last is empty, walking the page chain counts
every item exactly once. -/
theorem aggregateCount_eq_total {α : Type} :
    ∀ pages : List (List α), (∀ p ∈ pages.dropLast, p ≠ []) →
      aggregateCount pages = pages.flatten.length := by
  intro pages
  induction pages with
  | nil => intro _; rfl
  | cons page rest ih =>
    intro h
    cases rest with
    | nil =>
      cases page with
      | nil => rfl
      | cons x xs => simp [aggregateCount]
    | cons q qs =>
      have hpage : page ≠ [] := h page (by simp [List.dropLast])
      have hrest : ∀ p ∈ (q :: qs).dropLast, p ≠ [] := by
        intro p hp
        exact h p (by simp [List.dropLast, hp])
      have hne : page.isEmpty = false := by
        cases page with
        | nil => exact absurd rfl hpage
        | cons y ys => rfl
      have hstep : aggregateCount (page :: q :: qs) =
          if page.isEmpty then 0 else page.length + aggregateCount (q :: qs) := rfl
      rw [hstep, hne, if_neg Bool.false_ne_true, ih hrest]
      simp

/-- C2: for every user history consisting of pages `p1..pn` containing `N`
total items (no page before the last empty), `total_posts` and
`total_comments` of the stats endpoint each equal exactly `N` for the
corresponding listing — every item reachable by exhaustive pagination is
counted once, none double-counted or skipped. -/
theorem stats_counts_are_exact (nm : String) (created lk ck : Int)
    (postPages : List (List RawPost)) (commentPages : List (List RawComment))
    (hp : ∀ p ∈ postPages.dropLast, p ≠ [])
    (hc : ∀ p ∈ commentPages.dropLast, p ≠ []) :
    ∃ stats : UserStats,
      get_user_stats (Except.ok ⟨some nm, some created, some lk, some ck⟩)
          postPages commentPages = Except.ok stats ∧
      stats.total_posts = postPages.flatten.length ∧
      stats.total_comments = commentPages.flatten.length := by
  refine ⟨{ username := nm
            account_created := formatDate created
            link_karma := lk
            comment_karma := ck
            total_karma := lk + ck
            total_posts := aggregateCount postPages
            total_comments := aggregateCount commentPages }, ?_, ?_, ?_⟩
  · rfl
  · simpa using congrArg Int.ofNat (aggregateCount_eq_total postPages hp)
  · simpa using congrArg Int.ofNat (aggregateCount_eq_total commentPages hc)

/-- Witness for C2: two post pages (sizes 2 and 1) and one comment page,
counted as 3 and 2. -/
theorem stats_counts_are_exact_witness :
    (∀ p ∈ [[samplePost 1, samplePost 2], [samplePost 3]].dropLast, p ≠ []) ∧
    (∀ p ∈ [[sampleComment 1, sampleComment 2]].dropLast, p ≠ []) ∧
    (∃ stats : UserStats,
      get_user_stats (Except.ok ⟨some "alice", some 0, some 10, some 20⟩)
          [[samplePost 1, samplePost 2], [samplePost 3]]
          [[sampleComment 1, sampleComment 2]] = Except.ok stats ∧
      stats.total_posts = [[samplePost 1, samplePost 2], [samplePost 3]].flatten.length ∧
      stats.total_comments = [[sampleComment 1, sampleComment 2]].flatten.length) :=
  ⟨by decide, by decide,
    stats_counts_are_exact "alice" 0 10 20
      [[samplePost 1, samplePost 2], [samplePost 3]]
      [[sampleComment 1, sampleComment 2]] (by decide) (by decide)⟩

/-! ## C3: preview truncation -/

set_option maxRecDepth 10000

/-- C3: for every post selftext or comment body `s`, if `s` exceeds 200
characters the preview is the first 200 characters of `s` followed by
`"..."`; otherwise the preview is `s` unmodified.  In particular a
250-character body yields a 200-character prefix plus `"..."` and a
150-character body is returned unmodified. -/
theorem preview_truncation :
    (∀ c : RawComment, (buildCommentResponse c).comment_preview = preview200 c.body) ∧
    (∀ s : String, 200 < s.length → preview200 s = s.take 200 ++ "...") ∧
    (∀ s : String, s.length ≤ 200 → preview200 s = s) ∧
    preview200 (String.mk (List.replicate 250 'a')) =
      String.mk (List.replicate 200 'a') ++ "..." ∧
    preview200 (String.mk (List.replicate 150 'b')) = String.mk (List.replicate 150 'b') := by
  refine ⟨fun c => rfl, fun s h => ?_, fun s h => ?_, ?_, ?_⟩
  · simp [preview200, h]
  · simp [preview200, Nat.not_lt.mpr h]
  · decide
  · decide

/-- Witness for C3: the truncation branch applied to a concrete
250-character body. -/
theorem preview_truncation_witness :
    200 < (String.mk (List.replicate 250 'a')).length ∧
    preview200 (String.mk (List.replicate 250 'a')) =
      (String.mk (List.replicate 250 'a')).take 200 ++ "..." :=
  ⟨by decide, preview_truncation.2.1 (String.mk (List.replicate 250 'a')) (by decide)⟩

/-! ## C4: at-most-once consumption of an OAuth state -/

theorem lookup_markConsumed (store : AuthStore) (st : String) (r : AuthStateRec)
    (h : store.lookup st = some r) :
    (markConsumed store st).lookup st = some ⟨true⟩ := by
  induction store with
  | nil => simp [List.lookup] at h
  | cons p rest ih =>
    obtain ⟨k, v⟩ := p
    by_cases hp : k = st
    · subst hp
      have hmc : markConsumed ((k, v) :: rest) k = (k, ⟨true⟩) :: markConsumed rest k := by
        simp [markConsumed]
      rw [hmc]
      simp [List.lookup]
    · have hbeq : (st == k) = false := by
        simp only [beq_eq_false_iff_ne]
        exact fun he => hp he.symm
      have hmc : markConsumed ((k, v) :: rest) st = (k, v) :: markConsumed rest st := by
        simp [markConsumed, if_neg hp]
      rw [hmc]
      have hh : List.lookup st rest = some r := by
        simpa [List.lookup, hbeq] using h
      simpa [List.lookup, hbeq] using ih hh

/-- C4: for every valid code/state pair, exactly one OAuth callback with
that state produces a session, and every replayed callback presenting the
same state fails with `InvalidState`: an `AuthState` is consumed at most
once. -/
theorem auth_state_consumed_at_most_once (store : AuthStore) (st tok sid : String)
    (h : store.lookup st = some ⟨false⟩) :
    (auth_callback store st (Except.ok tok) sid).1 = CallbackOutcome.session sid ∧
    ∀ (exch2 : Except String String) (sid2 : String),
      (auth_callback (auth_callback store st (Except.ok tok) sid).2 st exch2 sid2).1 =
        CallbackOutcome.invalidState := by
  have hval : validate_and_mark_auth_state store st = (true, markConsumed store st) := by
    simp [validate_and_mark_auth_state, h]
  have hcb : auth_callback store st (Except.ok tok) sid =
      (CallbackOutcome.session sid, markConsumed store st) := by
    simp [auth_callback, hval]
  refine ⟨by rw [hcb], fun exch2 sid2 => ?_⟩
  rw [hcb]
  have hlk : (markConsumed store st).lookup st = some ⟨true⟩ :=
    lookup_markConsumed store st ⟨false⟩ h
  simp [auth_callback, validate_and_mark_auth_state, hlk]

/-- Witness for C4: a two-entry store whose pending state `"s1"` is consumed
by one callback; the replay fails. -/
theorem auth_state_consumed_at_most_once_witness :
    ([("s0", (⟨true⟩ : AuthStateRec)), ("s1", ⟨false⟩)] : AuthStore).lookup "s1" =
        some ⟨false⟩ ∧
    (auth_callback [("s0", ⟨true⟩), ("s1", ⟨false⟩)] "s1" (Except.ok "tok") "sid9").1 =
        CallbackOutcome.session "sid9" ∧
    ∀ (exch2 : Except String String) (sid2 : String),
      (auth_callback
          (auth_callback [("s0", ⟨true⟩), ("s1", ⟨false⟩)] "s1" (Except.ok "tok") "sid9").2
          "s1" exch2 sid2).1 = CallbackOutcome.invalidState :=
  ⟨by decide,
    (auth_state_consumed_at_most_once [("s0", ⟨true⟩), ("s1", ⟨false⟩)] "s1" "tok" "sid9"
      (by decide)).1,
    (auth_state_consumed_at_most_once [("s0", ⟨true⟩), ("s1", ⟨false⟩)] "s1" "tok" "sid9"
      (by decide)).2⟩

/-! ## C5: provider failures at the endpoint boundary -/

/-- C5 counterexample: the client response is not generic and embeds the
upstream error text — two different provider failures produce different
responses, and the upstream message appears verbatim in the 500 detail. -/
theorem provider_error_leaks_counterexample :
    get_user_posts 10 "newest" (Except.error "upstream response body ABC") =
      Except.error ⟨500, "Error retrieving posts: upstream response body ABC"⟩ ∧
    get_user_posts 10 "newest" (Except.error "upstream response body ABC") ≠
      get_user_posts 10 "newest" (Except.error "upstream response body XYZ") :=
  ⟨rfl, by decide⟩

/-- C5 amended: every provider failure is caught at the endpoint boundary
and converted to an `HTTPException` with status 500, but its detail is a
fixed prefix followed by the exception text `str(e)` — the upstream error
message does cross the trust boundary into the client response. -/
theorem provider_error_caught_with_message (e : String) (limit : Int)
    (postPages : List (List RawPost)) (commentPages : List (List RawComment)) :
    get_user_posts limit "newest" (Except.error e) =
      Except.error ⟨500, "Error retrieving posts: " ++ e⟩ ∧
    get_user_posts limit "oldest" (Except.error e) =
      Except.error ⟨500, "Error retrieving posts: " ++ e⟩ ∧
    get_user_comments limit "newest" (Except.error e) =
      Except.error ⟨500, "Error retrieving comments: " ++ e⟩ ∧
    get_user_stats (Except.error e) postPages commentPages =
      Except.error ⟨500, "Error retrieving user stats: " ++ e⟩ :=
  ⟨rfl, rfl, rfl, rfl⟩

/-! ## C6: the limit parameter -/

/-- C6 counterexample: `limit` is not bounded by 25 — a request with
`limit = 26` against a 26-item history returns 26 items. -/
theorem limit_not_capped_counterexample :
    (get_user_posts 26 "newest"
        (Except.ok (List.replicate 26 (samplePost 1)))).toOption.map List.length =
      some 26 ∧ ¬(26 ≤ 25) :=
  ⟨by decide, by decide⟩

/-- C6 amended: the `limit` query parameter is unvalidated (it only defaults
to 10): the "newest" path of both endpoints returns the first
`min limit (history size)` items for whatever limit is supplied, so values
above 25 are honoured rather than capped or rejected. -/
theorem limit_unvalidated (limit : Int)
    (allPosts : List RawPost) (allComments : List RawComment) :
    get_user_posts limit "newest" (Except.ok allPosts) =
      Except.ok ((allPosts.take limit.toNat).map buildPostResponse) ∧
    ((allPosts.take limit.toNat).map buildPostResponse).length =
      min limit.toNat allPosts.length ∧
    get_user_comments limit "newest" (Except.ok allComments) =
      Except.ok ((allComments.take limit.toNat).map buildCommentResponse) ∧
    ((allComments.take limit.toNat).map buildCommentResponse).length =
      min limit.toNat allComments.length := by
  refine ⟨rfl, ?_, rfl, ?_⟩ <;> simp [List.length_take]

/-! ## C7: defaults for missing provider fields -/

/-- C7 counterexample: a user record lacking `link_karma` makes the stats
endpoint fail with HTTP 500 — no `0` default is substituted and no complete
response object is produced. -/
theorem missing_field_not_defaulted_counterexample :
    get_user_stats (Except.ok ⟨some "alice", some 0, none, some 5⟩) [] [] =
      Except.error ⟨500, "Error retrieving user stats: AttributeError: link_karma"⟩ :=
  rfl

/-- C7 amended: missing provider fields are not defaulted — if any field the
stats assembler accesses is absent, attribute access raises at the first
missing field and the endpoint returns HTTP 500; `"Unknown"`/`0`/empty
substitution never happens. -/
theorem missing_field_yields_500 (u : RawUser)
    (postPages : List (List RawPost)) (commentPages : List (List RawComment))
    (h : u.name = none ∨ u.created_utc = none ∨
      u.link_karma = none ∨ u.comment_karma = none) :
    ∃ msg : String,
      get_user_stats (Except.ok u) postPages commentPages =
        Except.error ⟨500, "Error retrieving user stats: AttributeError: " ++ msg⟩ := by
  obtain ⟨nm, cr, lk, ck⟩ := u
  cases nm with
  | none => exact ⟨"name", rfl⟩
  | some a =>
    cases cr with
    | none => exact ⟨"created_utc", rfl⟩
    | some b =>
      cases lk with
      | none => exact ⟨"link_karma", rfl⟩
      | some c =>
        cases ck with
        | none => exact ⟨"comment_karma", rfl⟩
        | some d => simp at h

/-- Witness for the amended C7: the concrete record lacking `link_karma`. -/
theorem missing_field_yields_500_witness :
    ((⟨some "alice", some 0, none, some 5⟩ : RawUser).name = none ∨
      (⟨some "alice", some 0, none, some 5⟩ : RawUser).created_utc = none ∨
      (⟨some "alice", some 0, none, some 5⟩ : RawUser).link_karma = none ∨
      (⟨some "alice", some 0, none, some 5⟩ : RawUser).comment_karma = none) ∧
    ∃ msg : String,
      get_user_stats (Except.ok ⟨some "alice", some 0, none, some 5⟩) [] [] =
        Except.error ⟨500, "Error retrieving user stats: AttributeError: " ++ msg⟩ :=
  ⟨by decide, missing_field_yields_500 ⟨some "alice", some 0, none, some 5⟩ [] [] (by decide)⟩

/-! ## C8: unsupported sort order -/

/-- C8: for every request whose `sort_order` is neither `"oldest"` nor
`"newest"`, the posts and comments endpoints fail with HTTP 400 and return
no items. -/
theorem invalid_sort_order_rejected (limit : Int) (sort_order : String)
    (listingP : Except String (List RawPost)) (listingC : Except String (List RawComment))
    (h1 : sort_order ≠ "oldest") (h2 : sort_order ≠ "newest") :
    get_user_posts limit sort_order listingP =
      Except.error ⟨400, "sort_order must be \x27oldest\x27 or \x27newest\x27"⟩ ∧
    get_user_comments limit sort_order listingC =
      Except.error ⟨400, "sort_order must be \x27oldest\x27 or \x27newest\x27"⟩ := by
  constructor <;> simp [get_user_posts, get_user_comments, h1, h2]

/-- Witness for C8 at the unsupported sort `"top"`. -/
theorem invalid_sort_order_rejected_witness :
    ("top" : String) ≠ "oldest" ∧ ("top" : String) ≠ "newest" ∧
    (get_user_posts 5 "top" (Except.ok ([] : List RawPost)) =
        Except.error ⟨400, "sort_order must be \x27oldest\x27 or \x27newest\x27"⟩ ∧
      get_user_comments 5 "top" (Except.ok ([] : List RawComment)) =
        Except.error ⟨400, "sort_order must be \x27oldest\x27 or \x27newest\x27"⟩) :=
  ⟨by decide, by decide,
    invalid_sort_order_rejected 5 "top" (Except.ok []) (Except.ok [])
      (by decide) (by decide)⟩

/-! ## C9: sort check precedes the credentialed connection -/

/-- C9: in the with-credentials endpoints the `sort_order` check runs before
any Reddit connection is created: an unsupported sort yields HTTP 400 with
no connection attempted (`false` flag), whatever the supplied credentials
would do. -/
theorem sort_checked_before_connection (conn : Except String Unit) (limit : Int)
    (sort_order : String)
    (listingP : Except String (List RawPost)) (listingC : Except String (List RawComment))
    (h1 : sort_order ≠ "oldest") (h2 : sort_order ≠ "newest") :
    get_user_posts_with_credentials conn limit sort_order listingP =
      (Except.error ⟨400, "sort_order must be \x27oldest\x27 or \x27newest\x27"⟩, false) ∧
    get_user_comments_with_credentials conn limit sort_order listingC =
      (Except.error ⟨400, "sort_order must be \x27oldest\x27 or \x27newest\x27"⟩, false) := by
  constructor <;>
    simp [get_user_posts_with_credentials, get_user_comments_with_credentials, h1, h2]

/-- Witness for C9: invalid credentials (`conn` failing) and the
unsupported sort `"hot"` still produce the 400 with no connection. -/
theorem sort_checked_before_connection_witness :
    ("hot" : String) ≠ "oldest" ∧ ("hot" : String) ≠ "newest" ∧
    (get_user_posts_with_credentials (Except.error "bad credentials") 5 "hot"
        (Except.ok ([] : List RawPost)) =
      (Except.error ⟨400, "sort_order must be \x27oldest\x27 or \x27newest\x27"⟩, false) ∧
    get_user_comments_with_credentials (Except.error "bad credentials") 5 "hot"
        (Except.ok ([] : List RawComment)) =
      (Except.error ⟨400, "sort_order must be \x27oldest\x27 or \x27newest\x27"⟩, false)) :=
  ⟨by decide, by decide,
    sort_checked_before_connection (Except.error "bad credentials") 5 "hot"
      (Except.ok []) (Except.ok []) (by decide) (by decide)⟩

/-! ## C10: content previews and falsy selftext -/

/-- C10: posts with falsy (empty) selftext get `content_preview = none`
while the `selftext` field itself is still returned; a non-`none` preview is
produced exactly for non-empty selftext; every comment always receives a
`comment_preview`. -/
theorem content_preview_semantics (p : RawPost) (c : RawComment) :
    ((p.selftext = "" → (buildPostResponse p).content_preview = none) ∧
      (buildPostResponse p).selftext = some p.selftext ∧
      (p.selftext ≠ "" →
        (buildPostResponse p).content_preview = some (preview200 p.selftext))) ∧
    (buildCommentResponse c).comment_preview = preview200 c.body := by
  refine ⟨⟨fun h => ?_, rfl, fun h => ?_⟩, rfl⟩
  · simp [buildPostResponse, h]
  · simp [buildPostResponse, h]

/-- A concrete link post (empty selftext), for the C10 witness. -/
def emptyTextPost : RawPost :=
  ⟨"a link", "pics", 5, 6, 1, 2, 2, "/r/pics/comments/2/b/", ""⟩

/-- Witness for C10: the empty-selftext branch and the non-empty branch at
concrete posts, plus the always-present comment preview. -/
theorem content_preview_semantics_witness :
    (buildPostResponse emptyTextPost).content_preview = none ∧
    (buildPostResponse (samplePost 1)).content_preview =
      some (preview200 (samplePost 1).selftext) ∧
    (buildCommentResponse (sampleComment 1)).comment_preview =
      preview200 (sampleComment 1).body :=
  ⟨(content_preview_semantics emptyTextPost (sampleComment 1)).1.1 rfl,
    (content_preview_semantics (samplePost 1) (sampleComment 1)).1.2.2 (by decide),
    (content_preview_semantics (samplePost 1) (sampleComment 1)).2⟩
